import Mathlib

/-
Verification development for the AndroidCrashPlugins native crash handler.

The repository has two C++ translation units,
`native_crash_handler.cpp` (basic) and `enhanced_native_crash_handler.cpp`
(enhanced), with identical control flow for installation, the recursion
guard, chaining and re-raising; the enhanced one additionally captures
registers and a memory window and uses a deeper unwind limit.  The
definitions below are a shallow embedding of those functions: pure C
helpers become Lean functions, the process-wide globals become explicit
state records, and the OS facilities the code calls (the unwinder, dladdr,
pthread_getname_np, open, sigaction delivery) become explicit oracle
parameters or small state-transition models of their documented POSIX
behaviour.  Machine addresses are natural numbers taken modulo 2^64 where
pointer arithmetic can wrap.
-/

/-! ## Signal constants (Linux/Android numbering, as used by the handled set) -/

def SIGILL : Nat := 4
def SIGTRAP : Nat := 5
def SIGABRT : Nat := 6
def SIGBUS : Nat := 7
def SIGFPE : Nat := 8
def SIGSEGV : Nat := 11

/-- Sentinel disposition SIG_DFL: the null function pointer (value 0). -/
def SIG_DFL : Nat := 0

/-- Sentinel disposition SIG_IGN: the function pointer with value 1. -/
def SIG_IGN : Nat := 1

/-- MAX_STACK_FRAMES of the basic handler (`#define MAX_STACK_FRAMES 64`). -/
def MAX_STACK_FRAMES_basic : Nat := 64

/-- MAX_STACK_FRAMES of the enhanced handler (`#define MAX_STACK_FRAMES 128`). -/
def MAX_STACK_FRAMES : Nat := 128

/-- MEMORY_DUMP_SIZE (`#define MEMORY_DUMP_SIZE 256`): bytes read before and
after the fault address by the enhanced handler. -/
def MEMORY_DUMP_SIZE : Nat := 256

/-- The signals the installer registers the handler for, in the order of the
six `sigaction` calls in `Java_com_crashreporter_library_NativeCrashHandler_initialize`. -/
def handled_signals : List Nat := [SIGSEGV, SIGABRT, SIGFPE, SIGILL, SIGBUS, SIGTRAP]

/-! ## String formatting helpers (models of the snprintf conversions used) -/

/-- Lowercase hexadecimal rendering of a natural number, as printf %x / %p
produce (digits via `Nat.toDigits 16`, which uses lowercase letters). -/
def toHex (n : Nat) : String := String.mk (Nat.toDigits 16 n)

/-- Model of printf %p on bionic: 0x followed by lowercase hex digits. -/
def fmt_ptr (a : Nat) : String := "0x" ++ toHex a

/-- Left-pad a string with a fill character to a given width, as the
zero-padded width conversions (%03zu, %016lx, %04x, %02x) do. -/
def pad_left (s : String) (c : Char) (w : Nat) : String :=
  String.mk (List.replicate (w - s.length) c) ++ s

/-- Right-pad a string with spaces to a given width, as %-2d does. -/
def pad_right (s : String) (w : Nat) : String :=
  s ++ String.mk (List.replicate (w - s.length) ' ')

/-- Model of %016lx. -/
def hex16 (n : Nat) : String := pad_left (toHex n) '0' 16

/-- Two-complement pointer subtraction: what `(char*)a - (char*)b` printed
through %p yields on a 64-bit target. -/
def ptr_sub (a b : Nat) : Nat := (a + 2 ^ 64 - b) % 2 ^ 64

/-! ## get_signal_name / get_signal_description (identical in both files) -/

/-- Embedding of `get_signal_name` (switch over the six handled signals). -/
def get_signal_name (sig : Nat) : String :=
  if sig = SIGSEGV then "SIGSEGV"
  else if sig = SIGABRT then "SIGABRT"
  else if sig = SIGFPE then "SIGFPE"
  else if sig = SIGILL then "SIGILL"
  else if sig = SIGBUS then "SIGBUS"
  else if sig = SIGTRAP then "SIGTRAP"
  else "UNKNOWN"

/-- Embedding of `get_signal_description`. -/
def get_signal_description (sig : Nat) : String :=
  if sig = SIGSEGV then "Segmentation fault (invalid memory access)"
  else if sig = SIGABRT then "Abort signal (abnormal termination)"
  else if sig = SIGFPE then "Floating point exception"
  else if sig = SIGILL then "Illegal instruction"
  else if sig = SIGBUS then "Bus error (invalid memory alignment)"
  else if sig = SIGTRAP then "Trace/breakpoint trap"
  else "Unknown signal"

/-! ## StackUnwinder: unwind_callback / capture_stack_trace

`_Unwind_Backtrace` calls `unwind_callback` once per frame, in order, until
the callback returns `_URC_END_OF_STACK` or the unwinder reaches the end of
the stack.  We model the frames the unwind mechanism would report as a list
of program counters `pcs` (a shorter list models an early end of unwinding),
and run the callback body over it: stop when `frame_count >= max_frames`,
record the pc when it is nonzero (`if (pc)`), skip it otherwise. -/

/-- One run of `_Unwind_Backtrace` with `unwind_callback`: `acc` is the
frames recorded so far (`state->frames[0..frame_count)`). -/
def unwind_run (max_frames : Nat) : List Nat → List Nat → List Nat
  | acc, [] => acc
  | acc, pc :: rest =>
      if max_frames ≤ acc.length then acc
      else if pc != 0 then unwind_run max_frames (acc ++ [pc]) rest
      else unwind_run max_frames acc rest

/-- Embedding of `capture_stack_trace(frames, max_frames)`: runs the unwinder
from an empty frame buffer and returns the recorded frames (the C function
returns `state.frame_count`; here the list itself carries the count). -/
def capture_stack_trace (pcs : List Nat) (max_frames : Nat) : List Nat :=
  unwind_run max_frames [] pcs

theorem unwind_run_spec (max_frames : Nat) (pcs : List Nat) :
    ∀ acc : List Nat, acc.length ≤ max_frames →
      unwind_run max_frames acc pcs =
        acc ++ (pcs.filter (fun a => a != 0)).take (max_frames - acc.length) := by
  induction pcs with
  | nil => intro acc _; simp [unwind_run]
  | cons pc rest ih =>
    intro acc hle
    by_cases hfull : max_frames ≤ acc.length
    · have heq : acc.length = max_frames := Nat.le_antisymm hle hfull
      simp [unwind_run, hfull, heq]
    · have hlt : acc.length < max_frames := Nat.lt_of_not_le hfull
      by_cases hz : pc = 0
      · subst hz
        simp only [unwind_run, if_neg hfull]
        rw [if_neg (by simp)]
        rw [ih acc hle]
        simp [List.filter_cons]
      · simp only [unwind_run, if_neg hfull]
        rw [if_pos (by simpa using hz)]
        rw [ih (acc ++ [pc]) (by simpa using hlt)]
        have hsub : max_frames - acc.length = (max_frames - (acc.length + 1)) + 1 := by omega
        simp only [List.filter_cons, hz, decide_not]
        rw [if_pos (by simpa using hz)]
        rw [hsub, List.take_succ_cons]
        simp [List.append_assoc]

/-- Characterization of `capture_stack_trace`: the recorded frames are the
nonzero reported program counters, in order, cut off at `max_frames`. -/
theorem capture_stack_trace_spec (pcs : List Nat) (max_frames : Nat) :
    capture_stack_trace pcs max_frames =
      (pcs.filter (fun a => a != 0)).take max_frames := by
  have h := unwind_run_spec max_frames pcs [] (Nat.zero_le _)
  simpa [capture_stack_trace] using h

/-! ## CrashContextCapturer: get_thread_name and capture_registers -/

/-- Embedding of `get_thread_name` on the API 26+ path: `lookup` is the
result of `pthread_getname_np` (`some name` on success, `none` on a nonzero
return), `tid` is `gettid()`.  On failure the function synthesizes the
placeholder `snprintf(buffer, size, "Thread-%d", tid)`.  (On the pre-26
compile variant the lookup never happens, i.e. `lookup = none` always.) -/
def get_thread_name (lookup : Option String) (tid : Nat) : String :=
  match lookup with
  | some name => name
  | none => "Thread-" ++ toString tid

/-- The aarch64 register snapshot of `EnhancedCrashInfo::registers` (exactly
one architecture variant is compiled per target; we embed the `__aarch64__`
one). -/
structure Registers where
  pc : Nat
  sp : Nat
  lr : Nat
  cpsr : Nat
  x : List Nat
deriving DecidableEq, Repr

/-- All-zero register file: what the `memset(&g_crash_info, 0, ...)` leaves
when `capture_registers` returns early on a null context. -/
def zero_registers : Registers :=
  { pc := 0, sp := 0, lr := 0, cpsr := 0, x := List.replicate 31 0 }

/-- The aarch64 `uc_mcontext` fields the code reads: `regs[31]`, `sp`, `pc`,
`pstate`. -/
structure Ucontext where
  regs : List Nat
  sp : Nat
  pc : Nat
  pstate : Nat

/-- Embedding of `capture_registers` (aarch64 branch): copies pc, sp,
lr = regs[30], pstate and x0..x30 from the machine context; returns early
(leaving the zeroed snapshot) when the context pointer is null. -/
def capture_registers (context : Option Ucontext) : Registers :=
  match context with
  | none => zero_registers
  | some uc =>
      { pc := uc.pc, sp := uc.sp, lr := uc.regs.getD 30 0, cpsr := uc.pstate,
        x := (List.range 31).map (fun i => uc.regs.getD i 0) }

/-! ## MemoryInspector: capture_memory_dump (enhanced handler only)

Memory is modelled as a partial map from addresses to byte values; `none`
means the address is unmapped or access-protected, so that a load from it
delivers a fault.  The C code copies the window with unguarded
byte-by-byte `__builtin_memcpy` calls; in the model a copy that touches an
unmapped address makes the whole capture return `none` — the handler
itself faulted. -/

/-- Result record for the memory window: `memory_before`, `memory_after`,
`memory_readable` of `EnhancedCrashInfo`. -/
structure MemDump where
  before : List Nat
  after : List Nat
  readable : Bool
deriving DecidableEq, Repr

/-- Read `n` consecutive bytes starting at `start`; faults (returns `none`)
when any of them is unmapped. -/
def read_bytes (mem : Nat → Option Nat) (start n : Nat) : Option (List Nat) :=
  (List.range n).mapM (fun i => mem (start + i))

/-- Embedding of `capture_memory_dump`.  With a null fault address it
returns early: `memory_readable` stays false and the buffers keep the
zeroes from the enclosing memset.  Otherwise it copies
`MEMORY_DUMP_SIZE` bytes ending at and starting at the fault address with
no fault barrier; success unconditionally sets `memory_readable = true`,
and an unmapped byte in either window faults the handler (`none`). -/
def capture_memory_dump (mem : Nat → Option Nat) (fault_address : Nat) : Option MemDump :=
  if fault_address = 0 then
    some { before := List.replicate MEMORY_DUMP_SIZE 0,
           after := List.replicate MEMORY_DUMP_SIZE 0, readable := false }
  else
    match read_bytes mem (ptr_sub fault_address MEMORY_DUMP_SIZE) MEMORY_DUMP_SIZE,
          read_bytes mem fault_address MEMORY_DUMP_SIZE with
    | some b, some a => some { before := b, after := a, readable := true }
    | _, _ => none

/-! ## SignalRegistry: saved dispositions and the chain step

On the target platform (Android bionic, like glibc) `struct sigaction`
declares `sa_handler` and `sa_sigaction` as members of one anonymous
union, so both field accesses in the chain step read the same stored
pointer value.  A `Sigaction` therefore carries that single union storage
value: 0 is SIG_DFL, 1 is SIG_IGN, anything else is a real handler
address. -/

/-- Saved `struct sigaction`: `handler` is the union storage shared by
`sa_handler` and `sa_sigaction`. -/
structure Sigaction where
  handler : Nat
deriving DecidableEq, Repr

/-- What the chain step decides to call. -/
inductive ChainAction where
  | invoke_sigaction (h : Nat)
  | invoke_handler (h : Nat)
  | no_chain
deriving DecidableEq, Repr

/-- Embedding of the chain step of `signal_handler`:

    if (old_handler->sa_sigaction) { old_handler->sa_sigaction(sig, info, context); }
    else if (old_handler->sa_handler && old_handler->sa_handler != SIG_DFL
             && old_handler->sa_handler != SIG_IGN) { old_handler->sa_handler(sig); }

Both conditions read the one union storage value. -/
def chain (old : Sigaction) : ChainAction :=
  if old.handler ≠ 0 then ChainAction.invoke_sigaction old.handler
  else if old.handler ≠ 0 ∧ old.handler ≠ SIG_DFL ∧ old.handler ≠ SIG_IGN then
    ChainAction.invoke_handler old.handler
  else ChainAction.no_chain

/-! ## ReportSerializer: write_crash_to_file (enhanced layout)

`dladdr` is modelled as an oracle from an address to an optional `Dl_info`
record.  Each `write(fd, buffer, len)` call of the C function becomes one
string chunk; the file content is the concatenation of the chunks. -/

/-- The `Dl_info` fields the code reads: `dli_fname`, `dli_sname` (either
may be null) and `dli_saddr`. -/
structure DlInfo where
  dli_fname : Option String
  dli_sname : Option String
  dli_saddr : Nat

/-- Embedding of `EnhancedCrashInfo` (the payload fields the serializer
reads; `frame_count` is `stack_frames.length`). -/
structure EnhancedCrashInfo where
  signal : Nat
  code : Int
  fault_address : Nat
  signal_name : String
  thread_name : String
  pid : Nat
  tid : Nat
  crash_time : Int
  stack_frames : List Nat
  registers : Registers
  memory_before : List Nat
  memory_after : List Nat
  memory_readable : Bool

/-- The single header snprintf of `write_crash_to_file`. -/
def header_chunk (info : EnhancedCrashInfo) : String :=
  "NATIVE_CRASH\n" ++
  "Signal: " ++ info.signal_name ++ " (" ++ toString info.signal ++ ")\n" ++
  "Description: " ++ get_signal_description info.signal ++ "\n" ++
  "Code: " ++ toString info.code ++ "\n" ++
  "Fault Address: " ++ fmt_ptr info.fault_address ++ "\n" ++
  "Thread: " ++ info.thread_name ++ "\n" ++
  "PID: " ++ toString info.pid ++ "\n" ++
  "TID: " ++ toString info.tid ++ "\n" ++
  "Time: " ++ toString info.crash_time ++ "\n" ++
  "Frame Count: " ++ toString info.stack_frames.length ++ "\n\n"

/-- The register block chunks of the `__aarch64__` branch: one chunk for
pc/sp/lr/cpsr, then one `"  x%-2d:  %016lx\n"` chunk per x register. -/
def register_chunks (r : Registers) : List String :=
  ("  pc:   " ++ hex16 r.pc ++ "\n  sp:   " ++ hex16 r.sp ++
   "\n  lr:   " ++ hex16 r.lr ++ "\n  cpsr: " ++ hex16 r.cpsr ++ "\n")
  :: (List.range 31).map
      (fun i => "  x" ++ pad_right (toString i) 2 ++ ":  " ++ hex16 (r.x.getD i 0) ++ "\n")

/-- One stack-trace line: the `dladdr` success branch renders
`"#%03zu pc %p %s (%s+%p)\n"` with `"???"` in place of a null
`dli_fname` or `dli_sname`; the failure branch renders
`"#%03zu pc %p ???\n"`. -/
def frame_chunk (symbols : Nat → Option DlInfo) (i : Nat) (addr : Nat) : String :=
  match symbols addr with
  | some dl =>
      "#" ++ pad_left (toString i) '0' 3 ++ " pc " ++ fmt_ptr addr ++ " " ++
      dl.dli_fname.getD "???" ++ " (" ++ dl.dli_sname.getD "???" ++ "+" ++
      fmt_ptr (ptr_sub addr dl.dli_saddr) ++ ")\n"
  | none =>
      "#" ++ pad_left (toString i) '0' 3 ++ " pc " ++ fmt_ptr addr ++ " ???\n"

/-- The `for (size_t i = 0; i < info->frame_count; i++)` loop of the trace
block, carrying the running index. -/
def trace_loop (symbols : Nat → Option DlInfo) : List Nat → Nat → List String
  | [], _ => []
  | addr :: rest, i => frame_chunk symbols i addr :: trace_loop symbols rest (i + 1)

/-- All stack-trace line chunks, one per captured frame. -/
def trace_chunks (symbols : Nat → Option DlInfo) (frames : List Nat) : List String :=
  trace_loop symbols frames 0

/-- One 16-byte hex-dump row: the `"%04x: "` offset chunk, sixteen
`"%02x "` byte chunks, and the newline chunk. -/
def hexdump_row (buf : List Nat) (i : Nat) : List String :=
  (pad_left (toHex i) '0' 4 ++ ": ")
  :: (List.range 16).map (fun j => pad_left (toHex (buf.getD (i + j) 0)) '0' 2 ++ " ")
  ++ ["\n"]

/-- The sixteen rows of a 256-byte buffer dump (`for i += 16` loop). -/
def hexdump_chunks (buf : List Nat) : List String :=
  ((List.range 16).map (fun r => hexdump_row buf (r * 16))).flatten

/-- The memory-dump block, present only when `memory_readable`. -/
def memory_dump_chunks (info : EnhancedCrashInfo) : List String :=
  if info.memory_readable then
    "\nMEMORY DUMP:\n"
    :: ("Before fault address (" ++ fmt_ptr info.fault_address ++ " - 256):\n")
    :: hexdump_chunks info.memory_before
    ++ ("\nAfter fault address (" ++ fmt_ptr info.fault_address ++ "):\n")
    :: hexdump_chunks info.memory_after
  else []

/-- Every chunk the enhanced `write_crash_to_file` writes once the file is
open, in order. -/
def report_chunks (info : EnhancedCrashInfo) (symbols : Nat → Option DlInfo) : List String :=
  header_chunk info
  :: "REGISTERS:\n"
  :: register_chunks info.registers
  ++ ["\n", "STACK TRACE:\n"]
  ++ trace_chunks symbols info.stack_frames
  ++ memory_dump_chunks info

/-- The full report text: concatenation of the written chunks. -/
def report_text (info : EnhancedCrashInfo) (symbols : Nat → Option DlInfo) : String :=
  String.join (report_chunks info symbols)

/-- Embedding of `write_crash_to_file`: `open(g_crash_file_path,
O_CREAT | O_WRONLY | O_TRUNC, 0644)` either fails (`openOk = false`, the
function returns at `fd < 0` and the file keeps its prior state) or
succeeds, in which case O_TRUNC discards any prior content and the chunks
written become the entire file content.  `prior` is the file state before
the call (`none` when the file does not exist). -/
def write_crash_to_file (openOk : Bool) (prior : Option String)
    (info : EnhancedCrashInfo) (symbols : Nat → Option DlInfo) : Option String :=
  if openOk then some (report_text info symbols) else prior

/-! ## The signal handler (enhanced variant; the basic one has the same
control flow minus registers and memory dump)

The per-delivery inputs the OS and libc supply are gathered in a
`SignalEnv`; the process-wide globals the handler touches are a
`Globals` record.  The static `handling_crash` flag of `signal_handler`
lives in `Globals.handling_crash` (it is process-wide static storage). -/

/-- The `siginfo_t` fields the handler reads. -/
structure SigInfo where
  si_code : Int
  si_addr : Nat

/-- Per-delivery environment: the delivered machine context, the frames the
unwind mechanism would report, the libc lookup results, and whether
`open` on the report path succeeds. -/
structure SignalEnv where
  siginfo : SigInfo
  context : Option Ucontext
  pcs : List Nat
  threadName : Option String
  mem : Nat → Option Nat
  symbols : Nat → Option DlInfo
  pid : Nat
  tid : Nat
  now : Int
  openOk : Bool

/-- Process-wide mutable state the handler reads and writes:
the static `handling_crash` recursion-guard flag, the content of the file
at `g_crash_file_path` (`none` when absent), and `g_old_handlers`. -/
structure Globals where
  handling_crash : Bool
  crash_file : Option String
  g_old_handlers : Nat → Sigaction

/-- How one handler invocation ends. -/
inductive HandlerResult where
  /-- The recursion guard was already set: `_exit(1)` — immediate abnormal
  process termination, no report, no chaining, no re-raise. -/
  | exitedAbnormally
  /-- The unguarded memory-window copy touched an unmapped address: the
  handler itself faulted (re-entering it then exits abnormally). -/
  | faultedInHandler
  /-- The handler ran to its end: it decided `chained` as the chain step,
  report writing succeeded iff `wrote`, and it re-raised `reraised` after
  resetting that disposition to default. -/
  | completed (chained : ChainAction) (wrote : Bool) (reraised : Nat)
deriving DecidableEq, Repr

/-- The `g_crash_info` population steps of `signal_handler` (memset, field
assignments, `capture_registers`, the memory dump result, and
`capture_stack_trace` with `MAX_STACK_FRAMES`). -/
def build_crash_info (sig : Nat) (env : SignalEnv) (md : MemDump) : EnhancedCrashInfo :=
  { signal := sig
    code := env.siginfo.si_code
    fault_address := env.siginfo.si_addr
    signal_name := get_signal_name sig
    thread_name := get_thread_name env.threadName env.tid
    pid := env.pid
    tid := env.tid
    crash_time := env.now
    stack_frames := capture_stack_trace env.pcs MAX_STACK_FRAMES
    registers := capture_registers env.context
    memory_before := md.before
    memory_after := md.after
    memory_readable := md.readable }

/-- Embedding of `signal_handler(sig, info, context)`: recursion-guard
check, `handling_crash = 1`, crash-info capture (where the unguarded
memory read may itself fault), report write, chain decision, and
re-raise of `sig` after resetting it to SIG_DFL. -/
def signal_handler (g : Globals) (sig : Nat) (env : SignalEnv) : Globals × HandlerResult :=
  if g.handling_crash then (g, HandlerResult.exitedAbnormally)
  else
    match capture_memory_dump env.mem env.siginfo.si_addr with
    | none => ({ g with handling_crash := true }, HandlerResult.faultedInHandler)
    | some md =>
        let info := build_crash_info sig env md
        let newFile := write_crash_to_file env.openOk g.crash_file info env.symbols
        ({ g with handling_crash := true, crash_file := newFile },
          HandlerResult.completed (chain (g.g_old_handlers sig)) env.openOk sig)

/-- A sequence of fault deliveries handled in order, threading the
process-wide state. -/
def run_faults : Globals → List (Nat × SignalEnv) → Globals × List HandlerResult
  | g, [] => (g, [])
  | g, (sig, env) :: rest =>
      let step := signal_handler g sig env
      let restRun := run_faults step.1 rest
      (restRun.1, step.2 :: restRun.2)

/-- Whether an invocation ended at the recursion guard. -/
def is_early_exit : HandlerResult → Bool
  | HandlerResult.exitedAbnormally => true
  | _ => false

/-- Whether an invocation wrote the report file. -/
def wrote_report : HandlerResult → Bool
  | HandlerResult.completed _ w _ => w
  | _ => false

/-! ## Installation (`Java_com_crashreporter_library_NativeCrashHandler_initialize`) -/

/-- Pointwise update of a disposition table, as `sigaction(sig, &sa, &old)`
updates the kernel table and writes the previous entry. -/
def table_set (t : Nat → Sigaction) (sig : Nat) (v : Sigaction) : Nat → Sigaction :=
  fun s => if s = sig then v else t s

/-- Model constant: the (nonzero, non-sentinel) code address of
`signal_handler` in the process image, stored by the six `sigaction`
installation calls. -/
def signal_handler_address : Nat := 4096

/-- The `snprintf(g_crash_file_path, sizeof(g_crash_file_path),
"%s/native_crash.txt", crash_dir_str)` step: the report path is the
concatenation, truncated to 255 characters by the 256-byte buffer. -/
def snprintf_path (crash_dir : String) : String :=
  let full := crash_dir ++ "/native_crash.txt"
  if full.length ≤ 255 then full else String.mk (full.data.take 255)

/-- The process-wide installation state: `g_initialized`,
`g_crash_file_path`, `g_old_handlers`, plus the kernel disposition table
the `sigaction` calls read and replace. -/
structure InstallState where
  g_initialized : Bool
  g_crash_file_path : String
  g_old_handlers : Nat → Sigaction
  os_dispositions : Nat → Sigaction

/-- One `sigaction(sig, &sa, &g_old_handlers[sig])` call on the pair
(saved table, kernel table). -/
def install_one (st : (Nat → Sigaction) × (Nat → Sigaction)) (sig : Nat) :
    (Nat → Sigaction) × (Nat → Sigaction) :=
  (table_set st.1 sig (st.2 sig),
   table_set st.2 sig { handler := signal_handler_address })

/-- Embedding of the JNI `initialize` entry point: when `g_initialized` is
already set it returns at once (only logging); otherwise it formats the
report path, performs the six `sigaction` calls, and sets
`g_initialized`. -/
def install (s : InstallState) (crash_dir : String) : InstallState :=
  if s.g_initialized then s
  else
    let path := snprintf_path crash_dir
    let tables := handled_signals.foldl install_one (s.g_old_handlers, s.os_dispositions)
    { g_initialized := true
      g_crash_file_path := path
      g_old_handlers := tables.1
      os_dispositions := tables.2 }

/-! ## Terminal delivery: `signal(sig, SIG_DFL); raise(sig);`

POSIX delivery of a pending signal under the current disposition table:
with SIG_DFL the default action runs — for the six handled fault signals
that action terminates the process with that signal as its exit cause. -/

/-- What delivering `sig` under disposition table `os` does. -/
inductive Outcome where
  | killedBySignal (sig : Nat)
  | defaultNonFatal (sig : Nat)
  | ignored (sig : Nat)
  | handlerRuns (h : Nat)
deriving DecidableEq, Repr

/-- The default action of the six handled fault signals terminates the
process (other signals are modelled conservatively as non-fatal, which the
theorems never rely on). -/
def default_fatal (sig : Nat) : Bool := handled_signals.contains sig

/-- POSIX delivery of `sig` under table `os`. -/
def deliver (os : Nat → Sigaction) (sig : Nat) : Outcome :=
  if (os sig).handler = SIG_DFL then
    (if default_fatal sig then Outcome.killedBySignal sig else Outcome.defaultNonFatal sig)
  else if (os sig).handler = SIG_IGN then Outcome.ignored sig
  else Outcome.handlerRuns (os sig).handler

/-- The table a process with no handler installed has for `sig`. -/
def no_handler_table : Nat → Sigaction := fun _ => { handler := SIG_DFL }

/-- Embedding of the handler epilogue `signal(sig, SIG_DFL); raise(sig);`:
reset the disposition of `sig` to default, then deliver `sig` to the
current thread. -/
def reraise_with_default (os : Nat → Sigaction) (sig : Nat) : (Nat → Sigaction) × Outcome :=
  let os2 := table_set os sig { handler := SIG_DFL }
  (os2, deliver os2 sig)
/-! ## Helper lemmas -/

theorem signal_handler_guard (g : Globals) (sig : Nat) (env : SignalEnv)
    (h : g.handling_crash = true) :
    signal_handler g sig env = (g, HandlerResult.exitedAbnormally) := by
  simp [signal_handler, h]

theorem signal_handler_sets_flag (g : Globals) (sig : Nat) (env : SignalEnv) :
    (signal_handler g sig env).1.handling_crash = true := by
  by_cases h : g.handling_crash
  · simp [signal_handler, h]
  · simp only [signal_handler, h, if_neg]
    cases capture_memory_dump env.mem env.siginfo.si_addr <;> simp

theorem run_faults_all_early (faults : List (Nat × SignalEnv)) :
    ∀ g : Globals, g.handling_crash = true →
      ((run_faults g faults).2.all is_early_exit) = true := by
  induction faults with
  | nil => intro g _; simp [run_faults]
  | cons f rest ih =>
    intro g h
    obtain ⟨sig, env⟩ := f
    simp only [run_faults, signal_handler_guard g sig env h]
    simp [is_early_exit, ih g h]

theorem all_early_no_writes (rs : List HandlerResult)
    (h : rs.all is_early_exit = true) : rs.countP wrote_report = 0 := by
  induction rs with
  | nil => simp
  | cons r rest ih =>
    simp only [List.all_cons, Bool.and_eq_true] at h
    have hr : wrote_report r = false := by
      cases r <;> simp_all [is_early_exit, wrote_report]
    simp [List.countP_cons, hr, ih h.2]

theorem trace_loop_length (symbols : Nat → Option DlInfo) :
    ∀ (frames : List Nat) (i : Nat), (trace_loop symbols frames i).length = frames.length := by
  intro frames
  induction frames with
  | nil => intro i; simp [trace_loop]
  | cons a rest ih => intro i; simp [trace_loop, ih]

theorem trace_loop_getD (symbols : Nat → Option DlInfo) :
    ∀ (frames : List Nat) (i0 i : Nat), i < frames.length →
      (trace_loop symbols frames i0).getD i "" = frame_chunk symbols (i0 + i) (frames.getD i 0) := by
  intro frames
  induction frames with
  | nil => intro i0 i h; simp at h
  | cons a rest ih =>
    intro i0 i h
    cases i with
    | zero => simp [trace_loop]
    | succ n =>
      have hn : n < rest.length := by simpa using h
      have := ih (i0 + 1) n hn
      simpa [trace_loop, Nat.add_assoc, Nat.add_comm 1 n] using this

/-! ## Claim theorems -/

/-- Claim C5: for every unwind run, the captured stack trace has a frame
count at most the configured maximum depth, and the walk records exactly
the nonzero program counters the unwind mechanism reports, in order,
stopping exactly when the maximum is reached or the mechanism reports the
end of the stack; an early end of unwinding (a shorter `pcs`) simply gives
a shorter list, never an error value. -/
theorem c5_stack_depth_bounded (pcs : List Nat) (max_frames : Nat) :
    (capture_stack_trace pcs max_frames).length ≤ max_frames
    ∧ capture_stack_trace pcs max_frames = (pcs.filter (fun a => a != 0)).take max_frames := by
  refine ⟨?_, capture_stack_trace_spec pcs max_frames⟩
  rw [capture_stack_trace_spec]
  exact List.length_take_le _ _

/-- Claim C10: every address recorded in a captured stack trace is nonzero,
because `unwind_callback` appends a program counter only when it is
nonzero. -/
theorem c10_frames_nonzero (pcs : List Nat) (max_frames : Nat) (a : Nat)
    (h : a ∈ capture_stack_trace pcs max_frames) : a ≠ 0 := by
  rw [capture_stack_trace_spec] at h
  have h2 := List.mem_of_mem_take h
  have h3 := List.of_mem_filter h2
  simpa using h3

theorem c10_frames_nonzero_witness :
    5 ∈ capture_stack_trace [5, 0, 7] 10 ∧ (5 : Nat) ≠ 0 :=
  ⟨by decide, c10_frames_nonzero [5, 0, 7] 10 5 (by decide)⟩

/-- Claim C4: installation is idempotent — a second `initialize` call finds
`g_initialized` set and performs no re-installation, so the complete
installation state (saved prior-disposition table, report path, initialized
flag, kernel dispositions) after two calls equals the state after one. -/
theorem c4_install_idempotent (s : InstallState) (d d2 : String) :
    install (install s d) d2 = install s d := by
  by_cases h : s.g_initialized
  · simp [install, h]
  · simp [install, h]

/-- Claim C3, evaluated on the code: the chain step never invokes a saved
SIG_DFL disposition, but a saved SIG_IGN disposition — whose union storage
value 1 makes `old_handler->sa_sigaction` nonzero — IS invoked through the
sa_sigaction branch, although the `else if` guard of the very same code
excludes SIG_IGN.  A real handler address is invoked, as intended. -/
theorem c3_ignore_sentinel_invoked :
    chain { handler := SIG_DFL } = ChainAction.no_chain
    ∧ chain { handler := SIG_IGN } = ChainAction.invoke_sigaction SIG_IGN
    ∧ chain { handler := 4194304 } = ChainAction.invoke_sigaction 4194304 := by
  decide

/-- A concrete per-delivery environment used by witness instantiations:
null fault address, empty unwind, failing lookups, failing file open. -/
def sampleEnv : SignalEnv :=
  { siginfo := { si_code := 0, si_addr := 0 }, context := none, pcs := [],
    threadName := none, mem := fun _ => none, symbols := fun _ => none,
    pid := 1, tid := 1, now := 0, openOk := false }

/-- A concrete crash-info record used by witness instantiations. -/
def sampleInfo : EnhancedCrashInfo :=
  { signal := SIGSEGV, code := 1, fault_address := 0, signal_name := "SIGSEGV",
    thread_name := "main", pid := 1234, tid := 1234, crash_time := 1700000000,
    stack_frames := [4096, 8192], registers := zero_registers,
    memory_before := List.replicate MEMORY_DUMP_SIZE 0,
    memory_after := List.replicate MEMORY_DUMP_SIZE 0,
    memory_readable := false }

set_option maxRecDepth 8000 in
/-- Claim C2, evaluated on the code: `capture_memory_dump` copies the
before/after windows with unguarded byte loads, so when the window around a
nonzero fault address is unmapped the read itself faults (result `none`)
instead of aborting safely with `memory_readable = false`; and when the
whole window is mapped the captured buffers equal the memory content and
`memory_readable` is unconditionally set to true. -/
theorem c2_unguarded_memory_read :
    capture_memory_dump (fun _ => none) 4096 = none
    ∧ capture_memory_dump (fun _ => some 7) 4096 =
        some { before := List.replicate MEMORY_DUMP_SIZE 7,
               after := List.replicate MEMORY_DUMP_SIZE 7, readable := true } :=
  ⟨by decide, by decide⟩

/-- Claim C6: after report generation and chaining, the handler resets the
faulting signal to SIG_DFL and re-raises it on the current thread, so the
delivery outcome is termination by that very signal — the same outcome the
process would have with no handler installed. -/
theorem c6_reraise_default (os : Nat → Sigaction) (sig : Nat)
    (h : default_fatal sig = true) :
    ((reraise_with_default os sig).1 sig).handler = SIG_DFL
    ∧ (reraise_with_default os sig).2 = Outcome.killedBySignal sig
    ∧ (reraise_with_default os sig).2 = deliver no_handler_table sig := by
  simp [reraise_with_default, table_set, deliver, no_handler_table, h]

theorem c6_reraise_default_witness :
    ((reraise_with_default (fun _ => { handler := 77 }) SIGSEGV).1 SIGSEGV).handler = SIG_DFL
    ∧ (reraise_with_default (fun _ => { handler := 77 }) SIGSEGV).2 =
        Outcome.killedBySignal SIGSEGV
    ∧ (reraise_with_default (fun _ => { handler := 77 }) SIGSEGV).2 =
        deliver no_handler_table SIGSEGV :=
  c6_reraise_default (fun _ => { handler := 77 }) SIGSEGV (by decide)

set_option maxRecDepth 8000 in
/-- Claim C7 as stated fails on the code: for a 250-character report
directory the 256-byte `g_crash_file_path` buffer truncates the snprintf
result, so the report path is not `<report_directory>/native_crash.txt`. -/
theorem c7_counterexample :
    snprintf_path (String.mk (List.replicate 250 'a')) ≠
      String.mk (List.replicate 250 'a') ++ "/native_crash.txt" := by
  decide

/-- Claim C7 (amended): the report is written to the path obtained by
formatting `<report_directory>/native_crash.txt` into the 256-byte path
buffer — exactly `<report_directory>/native_crash.txt` whenever the
combined path fits in 255 characters — and on every fault the file is
opened with O_CREAT, O_WRONLY and O_TRUNC: it is created fresh and any
prior content is discarded, never appended to. -/
theorem c7_path_and_truncation (dir : String) (prior : Option String)
    (info : EnhancedCrashInfo) (symbols : Nat → Option DlInfo)
    (h : dir.length + 17 ≤ 255) :
    snprintf_path dir = dir ++ "/native_crash.txt"
    ∧ write_crash_to_file true prior info symbols = some (report_text info symbols) := by
  constructor
  · have h17 : ("/native_crash.txt" : String).length = 17 := rfl
    have hlen : (dir ++ "/native_crash.txt").length ≤ 255 := by
      rw [String.length_append, h17]
      exact h
    simp only [snprintf_path]
    rw [if_pos hlen]
  · simp [write_crash_to_file]

theorem c7_path_and_truncation_witness :
    snprintf_path "/data/tombstones" = "/data/tombstones" ++ "/native_crash.txt"
    ∧ write_crash_to_file true (some "OLD CONTENT") sampleInfo (fun _ => none) =
        some (report_text sampleInfo (fun _ => none)) :=
  c7_path_and_truncation "/data/tombstones" (some "OLD CONTENT") sampleInfo
    (fun _ => none) (by decide)

/-- Claim C8: capture sub-step failures substitute well-defined placeholders
and continue: a failed thread-name lookup yields the deterministic
`Thread-<tid>` placeholder built from the thread id; a stack frame whose
`dladdr` resolution fails still yields its trace line, with the `???`
placeholder; and the report chunk sequence keeps the same shape whatever
the symbol oracle answers, so no sub-step failure aborts the rest of the
report. -/
theorem c8_placeholders (tid : Nat) (frames : List Nat)
    (symbols s2 : Nat → Option DlInfo) (i : Nat) (info : EnhancedCrashInfo)
    (h : i < frames.length) (hfail : symbols (frames.getD i 0) = none) :
    get_thread_name none tid = "Thread-" ++ toString tid
    ∧ (trace_chunks symbols frames).length = frames.length
    ∧ (trace_chunks symbols frames).getD i "" =
        "#" ++ pad_left (toString i) '0' 3 ++ " pc " ++ fmt_ptr (frames.getD i 0) ++ " ???\n"
    ∧ (report_chunks info symbols).length = (report_chunks info s2).length := by
  refine ⟨rfl, trace_loop_length symbols frames 0, ?_, ?_⟩
  · have hg := trace_loop_getD symbols frames 0 i h
    rw [trace_chunks, hg, Nat.zero_add]
    unfold frame_chunk
    rw [hfail]
  · simp [report_chunks, trace_chunks, trace_loop_length]

theorem c8_placeholders_witness :
    get_thread_name none 7 = "Thread-" ++ toString 7
    ∧ (trace_chunks (fun _ => none) [4096]).length = ([4096] : List Nat).length
    ∧ (trace_chunks (fun _ => none) [4096]).getD 0 "" =
        "#" ++ pad_left (toString 0) '0' 3 ++ " pc " ++
          fmt_ptr (([4096] : List Nat).getD 0 0) ++ " ???\n"
    ∧ (report_chunks sampleInfo (fun _ => none)).length =
        (report_chunks sampleInfo (fun _ => none)).length :=
  c8_placeholders 7 [4096] (fun _ => none) (fun _ => none) 0 sampleInfo (by decide) rfl

/-- The process state at startup: recursion guard clear, no report file on
disk yet, saved dispositions `old`. -/
def init_globals (old : Nat → Sigaction) : Globals :=
  { handling_crash := false, crash_file := none, g_old_handlers := old }

/-- A process state whose recursion guard is already set (a fault is being
handled), used by witness instantiations. -/
def guarded_globals : Globals :=
  { handling_crash := true, crash_file := none, g_old_handlers := fun _ => { handler := 0 } }

/-- Claim C1: at most one crash report per process lifetime.  Over any
sequence of faults handled from the initial process state, at most one
invocation writes the report and every invocation after the first ends at
the recursion guard; an entry that finds `handling_crash` already set
returns the state untouched and exits abnormally — no report, no chain
decision, no re-raise; and after any entry the flag is set, so once set it
is never cleared. -/
theorem c1_single_report (old : Nat → Sigaction) (faults : List (Nat × SignalEnv))
    (g : Globals) (sig : Nat) (env : SignalEnv) (h : g.handling_crash = true) :
    ((run_faults (init_globals old) faults).2.countP wrote_report ≤ 1)
    ∧ (((run_faults (init_globals old) faults).2.drop 1).all is_early_exit = true)
    ∧ signal_handler g sig env = (g, HandlerResult.exitedAbnormally)
    ∧ (signal_handler g sig env).1.handling_crash = true := by
  refine ⟨?_, ?_, signal_handler_guard g sig env h, signal_handler_sets_flag g sig env⟩
  · cases faults with
    | nil => simp [run_faults]
    | cons f rest =>
      obtain ⟨s0, e0⟩ := f
      have hflag := signal_handler_sets_flag (init_globals old) s0 e0
      have hall := run_faults_all_early rest _ hflag
      have hzero := all_early_no_writes _ hall
      simp only [run_faults, List.countP_cons, hzero]
      split <;> omega
  · cases faults with
    | nil => simp [run_faults]
    | cons f rest =>
      obtain ⟨s0, e0⟩ := f
      have hflag := signal_handler_sets_flag (init_globals old) s0 e0
      have hall := run_faults_all_early rest _ hflag
      simpa [run_faults] using hall

theorem c1_single_report_witness :
    ((run_faults (init_globals (fun _ => { handler := 0 })) [(SIGSEGV, sampleEnv)]).2.countP wrote_report ≤ 1)
    ∧ (((run_faults (init_globals (fun _ => { handler := 0 })) [(SIGSEGV, sampleEnv)]).2.drop 1).all is_early_exit = true)
    ∧ signal_handler guarded_globals SIGSEGV sampleEnv = (guarded_globals, HandlerResult.exitedAbnormally)
    ∧ (signal_handler guarded_globals SIGSEGV sampleEnv).1.handling_crash = true :=
  c1_single_report (fun _ => { handler := 0 }) [(SIGSEGV, sampleEnv)]
    guarded_globals SIGSEGV sampleEnv rfl

/-- Claim C9: when `open` on the report path fails, report generation is
silently abandoned — the report file keeps its prior state, so no partial
report appears and no error is surfaced — and the handler still proceeds
to the chain decision and to re-raising the faulting signal. -/
theorem c9_open_failure (g : Globals) (sig : Nat) (env : SignalEnv)
    (h1 : g.handling_crash = false) (h2 : env.openOk = false)
    (h3 : (capture_memory_dump env.mem env.siginfo.si_addr).isSome = true) :
    (signal_handler g sig env).1.crash_file = g.crash_file
    ∧ (signal_handler g sig env).2 =
        HandlerResult.completed (chain (g.g_old_handlers sig)) false sig := by
  obtain ⟨md, hmd⟩ := Option.isSome_iff_exists.mp h3
  simp [signal_handler, h1, hmd, write_crash_to_file, h2]

theorem c9_open_failure_witness :
    (signal_handler (init_globals (fun _ => { handler := 0 })) SIGSEGV sampleEnv).1.crash_file =
      (init_globals (fun _ => { handler := 0 })).crash_file
    ∧ (signal_handler (init_globals (fun _ => { handler := 0 })) SIGSEGV sampleEnv).2 =
        HandlerResult.completed (chain { handler := 0 }) false SIGSEGV :=
  c9_open_failure (init_globals (fun _ => { handler := 0 })) SIGSEGV sampleEnv rfl rfl (by decide)
